import Mathlib

/-!
Shallow embedding of `src/generate_icon.py` (VoxMatrix icon generator).

The script renders a square RGBA icon of a given edge length `size`:
a circular blue-to-purple gradient, a faint white grid, a white "V"
glyph, a translucent glow redrawn over the glyph, and finally
`img.putalpha(mask)` with a rounded-rectangle mask.  A driver loops over
the five Android density entries and writes one PNG per entry.

Modelling conventions, stated once here:

* Pixels are addressed by natural coordinates `(x, y)` with `x, y < size`;
  a pixel is a record of four natural channels `r g b a` in `0..255`.
* Python `int()` on the nonnegative values appearing here truncates, i.e.
  takes the floor.  `int(size * 0.1)` equals `size / 10` in natural
  division: the IEEE double product `size * 0.1` has the same floor as the
  exact product for every size in the realistic range, because the exact
  product is never closer than about `0.09` to a smaller integer and the
  rounding error is below `1e-10` there (for multiples of ten the product
  rounds to the exact integer).  Likewise `int(size * 0.25)` is `size / 4`
  and `int(size * 0.75)` is `3 * size / 4`, exactly (dyadic factors).
  `int(size * 0.35)` and `int(size * 0.65)` are `35 * size / 100` and
  `65 * size / 100`; the double product can differ from the exact floor
  only when the exact product is an integer (first at size 180), which no
  claim below touches.
* The gradient computes `ratio = dist / radius` with
  `dist = sqrt((x - cx)^2 + (y - cy)^2)` and truncates
  `100 + 38 * ratio`, `150 - 107 * ratio`, `255 - 60 * ratio`.
  With `d2` the squared distance, the exact floors are expressed with
  natural arithmetic via `⌊k * √d2 / rad⌋ = Nat.sqrt (k^2 * d2) / rad`
  and `⌊c - k * √d2 / rad⌋ = c - ⌈k * √d2 / rad⌉` (the values are
  positive, so Python truncation is the floor).  The Python script
  computes these in IEEE doubles; double rounding can move a channel by
  one unit only when `k * √d2 / rad` is within about `1e-13` of an
  integer, which affects none of the claims below (they concern ranges,
  the two gradient endpoints, and alpha values).
* `ImageDraw.Draw(img)` on an RGBA image draws with `blend = 0`: every
  draw call REPLACES the pixels it covers, alpha included (blending only
  happens for mode "RGBA" on an "RGB" image).
* `draw.line(..., width=1)` on an axis-aligned segment covers exactly the
  pixels of the segment, both endpoints included.
* `draw.line(..., width=w)` for `w > 1` fills a wide stroke around the
  segment; the library rasterizes a quadrilateral of total width `w`.
  It is modelled here as the set of points at Euclidean distance at most
  `w / 2` from the segment.  Every theorem below evaluates stroke
  membership only at points whose distance from the segment is more than
  one pixel away from the stroke boundary, where the model and any
  faithful rasterization of a width-`w` stroke agree.
* `rounded_rectangle([0, 0, size, size], radius=r, fill=255)` fills the
  rounded rectangle: the full horizontal band `r ≤ x ≤ size - r`, the
  full vertical band `r ≤ y ≤ size - r`, and the four quarter discs of
  radius `r` at the corners.
* `img.putalpha(mask)` REPLACES the image's alpha channel with the mask.
* The one failure mode: when `radius = 0` and the image has at least one
  pixel, the center pixel satisfies `dist <= radius` and
  `ratio = dist / radius` raises ZeroDivisionError (Python raises on
  float division by zero).  The renderer is therefore embedded as an
  `Option`-valued function, `none` on that failure.
* The driver's filesystem side effects (os.makedirs, Image.save) are
  embedded as an explicit effect list.
-/

namespace VoxMatrix

/-- One RGBA pixel; channels are naturals in 0..255. -/
structure RGBA where
  r : ℕ
  g : ℕ
  b : ℕ
  a : ℕ
deriving DecidableEq, Repr

/-- An image: an edge length and a pixel function, meaningful on
coordinates below `size`. -/
structure Img where
  size : ℕ
  pix : ℕ → ℕ → RGBA

/-- The size table `ICON_SIZES`; Python dicts iterate in insertion
order. -/
def ICON_SIZES : List (String × ℕ) :=
  [("mdpi", 48), ("hdpi", 72), ("xhdpi", 96), ("xxhdpi", 144), ("xxxhdpi", 192)]

/-- `padding = int(size * 0.1)` — truncation (NOT rounding to nearest);
equals natural division by 10, see the header note. -/
def padding (size : ℕ) : ℕ := size / 10

/-- `icon_size = size - (padding * 2)`. -/
def icon_size (size : ℕ) : ℕ := size - 2 * padding size

/-- `center = size // 2`. -/
def center (size : ℕ) : ℕ := size / 2

/-- `radius = icon_size // 2`. -/
def radius (size : ℕ) : ℕ := icon_size size / 2

/-- Squared Euclidean distance of pixel `(x, y)` from
`(center, center)`; the script compares `math.sqrt` of this to
`radius`. -/
def dist2 (size x y : ℕ) : ℕ :=
  ((x : ℤ) - center size).natAbs ^ 2 + ((y : ℤ) - center size).natAbs ^ 2

/-- The gradient guard `dist <= radius`, squared (both sides are
nonnegative, so the comparison is equivalent). -/
def inCircle (size x y : ℕ) : Bool :=
  decide (dist2 size x y ≤ radius size ^ 2)

/-- `⌊k * √d2 / rad⌋ = Nat.sqrt (k^2 * d2) / rad` (floor commutes with
division by a natural, and `⌊√m⌋ = Nat.sqrt m`). -/
def floorMulSqrtDiv (k d2 rad : ℕ) : ℕ := Nat.sqrt (k ^ 2 * d2) / rad

/-- `⌈k * √d2 / rad⌉`: the floor plus one unless `k * √d2 / rad` is an
integer, i.e. unless `k^2 * d2` is a perfect square whose root is
divisible by `rad`. -/
def ceilMulSqrtDiv (k d2 rad : ℕ) : ℕ :=
  if Nat.sqrt (k ^ 2 * d2) * Nat.sqrt (k ^ 2 * d2) = k ^ 2 * d2 ∧
      Nat.sqrt (k ^ 2 * d2) % rad = 0
  then Nat.sqrt (k ^ 2 * d2) / rad
  else Nat.sqrt (k ^ 2 * d2) / rad + 1

/-- The gradient pixel written when `dist <= radius`:
`r = int(100 + (138 - 100) * ratio)`, `g = int(150 + (43 - 150) * ratio)`,
`b = int(255 - 60 * ratio)`, alpha 255, with `ratio = dist / radius`,
rewritten through the floor identities of the header note. -/
def gradPixel (size x y : ℕ) : RGBA :=
  { r := 100 + floorMulSqrtDiv 38 (dist2 size x y) (radius size)
    g := 150 - ceilMulSqrtDiv 107 (dist2 size x y) (radius size)
    b := 255 - ceilMulSqrtDiv 60 (dist2 size x y) (radius size)
    a := 255 }

/-- `grid_spacing = max(4, size // 16)`. -/
def grid_spacing (size : ℕ) : ℕ := max 4 (size / 16)

/-- `i` is hit by `range(padding, size - padding, grid_spacing)`. -/
def isGridIndex (size i : ℕ) : Bool :=
  decide (padding size ≤ i ∧ i < size - padding size ∧
    (i - padding size) % grid_spacing size = 0)

/-- Pixel `(x, y)` lies on one of the width-1 grid lines: a vertical
line `x = i`, `padding ≤ y ≤ size - padding`, or a horizontal line
`y = i`, `padding ≤ x ≤ size - padding`, for a grid index `i`. -/
def onGrid (size x y : ℕ) : Bool :=
  (isGridIndex size x && decide (padding size ≤ y ∧ y ≤ size - padding size)) ||
  (isGridIndex size y && decide (padding size ≤ x ∧ x ≤ size - padding size))

/-- `v_thickness = max(2, size // 12)`. -/
def v_thickness (size : ℕ) : ℕ := max 2 (size / 12)

/-- `v_top_y = int(size * 0.25)` (exact, 0.25 is dyadic). -/
def v_top_y (size : ℕ) : ℕ := size / 4

/-- `v_bottom_y = int(size * 0.75)` (exact, 0.75 is dyadic). -/
def v_bottom_y (size : ℕ) : ℕ := 3 * size / 4

/-- `v_left_x = int(size * 0.35)`; see the header note on 0.35. -/
def v_left_x (size : ℕ) : ℕ := 35 * size / 100

/-- `v_right_x = int(size * 0.65)`; see the header note on 0.65. -/
def v_right_x (size : ℕ) : ℕ := 65 * size / 100

/-- `v_center_x = size // 2`. -/
def v_center_x (size : ℕ) : ℕ := size / 2

/-- Point `p` lies on the width-`w` stroke of the segment from `a` to
`b`: its Euclidean distance to the segment is at most `w / 2` (all
comparisons squared and cross-multiplied to stay in ℤ). -/
def onSeg (a b p : ℤ × ℤ) (w : ℤ) : Bool :=
  let dx := b.1 - a.1
  let dy := b.2 - a.2
  let ux := p.1 - a.1
  let uy := p.2 - a.2
  let dot := ux * dx + uy * dy
  let len2 := dx * dx + dy * dy
  if dot ≤ 0 then decide (4 * (ux ^ 2 + uy ^ 2) ≤ w ^ 2)
  else if len2 ≤ dot then
    decide (4 * ((p.1 - b.1) ^ 2 + (p.2 - b.2) ^ 2) ≤ w ^ 2)
  else decide (4 * (ux * dy - uy * dx) ^ 2 ≤ w ^ 2 * len2)

/-- The two solid V strokes, width `v_thickness`. -/
def onV (size x y : ℕ) : Bool :=
  onSeg ((v_left_x size : ℤ), (v_top_y size : ℤ))
    ((v_center_x size : ℤ), (v_bottom_y size : ℤ)) ((x : ℤ), (y : ℤ))
    (v_thickness size : ℤ) ||
  onSeg ((v_right_x size : ℤ), (v_top_y size : ℤ))
    ((v_center_x size : ℤ), (v_bottom_y size : ℤ)) ((x : ℤ), (y : ℤ))
    (v_thickness size : ℤ)

/-- The two glow strokes over the same segments, width
`v_thickness + 4`, drawn after (hence over) the solid strokes. -/
def onGlow (size x y : ℕ) : Bool :=
  onSeg ((v_left_x size : ℤ), (v_top_y size : ℤ))
    ((v_center_x size : ℤ), (v_bottom_y size : ℤ)) ((x : ℤ), (y : ℤ))
    ((v_thickness size : ℤ) + 4) ||
  onSeg ((v_right_x size : ℤ), (v_top_y size : ℤ))
    ((v_center_x size : ℤ), (v_bottom_y size : ℤ)) ((x : ℤ), (y : ℤ))
    ((v_thickness size : ℤ) + 4)

/-- `grid_color = (255, 255, 255, 30)`. -/
def grid_color : RGBA := ⟨255, 255, 255, 30⟩

/-- `v_color = (255, 255, 255, 255)`. -/
def v_color : RGBA := ⟨255, 255, 255, 255⟩

/-- `glow_color = (100, 200, 255, 100)`. -/
def glow_color : RGBA := ⟨100, 200, 255, 100⟩

/-- The image immediately before the mask step: the draws happen in the
order gradient, grid, V, glow, and each draw replaces the pixels it
covers (blend = 0 on an RGBA image), so the LAST draw covering a pixel
determines it. -/
def premaskPix (size x y : ℕ) : RGBA :=
  if onGlow size x y then glow_color
  else if onV size x y then v_color
  else if onGrid size x y then grid_color
  else if inCircle size x y then gradPixel size x y
  else ⟨0, 0, 0, 0⟩

/-- `corner_radius = size // 8`. -/
def corner_radius (size : ℕ) : ℕ := size / 8

/-- Membership in the rounded rectangle
`rounded_rectangle([0, 0, size, size], radius=corner_radius)`: the two
full bands plus the four corner quarter discs. -/
def inRoundedRect (size x y : ℕ) : Bool :=
  let r : ℤ := corner_radius size
  let s : ℤ := size
  let xi : ℤ := x
  let yi : ℤ := y
  decide (r ≤ xi ∧ xi ≤ s - r) || decide (r ≤ yi ∧ yi ≤ s - r) ||
  decide ((xi - r) ^ 2 + (yi - r) ^ 2 ≤ r ^ 2) ||
  decide ((xi - (s - r)) ^ 2 + (yi - r) ^ 2 ≤ r ^ 2) ||
  decide ((xi - r) ^ 2 + (yi - (s - r)) ^ 2 ≤ r ^ 2) ||
  decide ((xi - (s - r)) ^ 2 + (yi - (s - r)) ^ 2 ≤ r ^ 2)

/-- The mask value at `(x, y)`: 255 inside the rounded rectangle, 0
outside (`mask = Image.new('L', ..., 0)` then filled with 255). -/
def maskVal (size x y : ℕ) : ℕ :=
  if inRoundedRect size x y then 255 else 0

/-- `img.putalpha(mask)`: the alpha channel is REPLACED by the mask
value; the color channels are kept. -/
def finalPix (size x y : ℕ) : RGBA :=
  { premaskPix size x y with a := maskVal size x y }

/-- `create_voxmatrix_icon(size)`: `none` models the ZeroDivisionError
raised when some pixel passes the gradient guard while `radius = 0`
(for `size ≥ 1` the center pixel always does); otherwise the composited
image. -/
def create_voxmatrix_icon (size : ℕ) : Option Img :=
  if size = 0 then some { size := 0, pix := fun _ _ => ⟨0, 0, 0, 0⟩ }
  else if radius size = 0 then none
  else some { size := size, pix := fun x y => finalPix size x y }

/-- `base_path` from `main`. -/
def base_path : String := "/home/xaf/Desktop/VoxMatrix/app/android/app/src/main/res"

/-- A filesystem effect of `main`: `os.makedirs(path, exist_ok=True)`
or `icon.save(path, format)`. -/
inductive FsEffect where
  | mkdirs (path : String)
  | savePng (path : String) (format : String) (img : Img)

/-- The mipmap directory for a density label. -/
def mipmapDir (folder : String) : String :=
  base_path ++ "/mipmap-" ++ folder

/-- The output file for a density label. -/
def iconFile (folder : String) : String :=
  mipmapDir folder ++ "/ic_launcher.png"

/-- One iteration of `main`'s loop: render, create the directory, save
as PNG; `none` if the render raises. -/
def mainStep (entry : String × ℕ) : Option (List FsEffect) :=
  (create_voxmatrix_icon entry.2).map fun icon =>
    [FsEffect.mkdirs (mipmapDir entry.1),
     FsEffect.savePng (iconFile entry.1) "PNG" icon]

/-- All filesystem effects of `main`, in order. -/
def mainEffects : Option (List FsEffect) :=
  (ICON_SIZES.mapM mainStep).map fun ls => ls.foldr (· ++ ·) []

/-- Observable signature of an effect: directory path, or
(file path, format, image edge length). -/
def effectSig : FsEffect → String ⊕ (String × String × ℕ)
  | .mkdirs p => .inl p
  | .savePng p f img => .inr (p, f, img.size)

/-- The rendered size-48 icon (`create_voxmatrix_icon 48` succeeds; see
`create48_eq`). -/
def icon48 : Img :=
  (create_voxmatrix_icon 48).getD { size := 0, pix := fun _ _ => ⟨0, 0, 0, 0⟩ }

theorem create48_eq : create_voxmatrix_icon 48 = some icon48 := rfl

theorem radius_pos {size : ℕ} (h : 2 ≤ size) : 0 < radius size := by
  unfold radius icon_size padding
  omega

theorem sqrt_mul_le {k d2 rad : ℕ} (h : d2 ≤ rad ^ 2) :
    Nat.sqrt (k ^ 2 * d2) ≤ k * rad := by
  have h2 : k ^ 2 * d2 ≤ (k * rad) * (k * rad) := by
    calc k ^ 2 * d2 ≤ k ^ 2 * rad ^ 2 := Nat.mul_le_mul_left _ h
      _ = (k * rad) * (k * rad) := by ring
  calc Nat.sqrt (k ^ 2 * d2) ≤ Nat.sqrt ((k * rad) * (k * rad)) :=
        Nat.sqrt_le_sqrt h2
    _ = k * rad := Nat.sqrt_eq _

theorem floorMulSqrtDiv_le {k d2 rad : ℕ} (hrad : 0 < rad)
    (h : d2 ≤ rad ^ 2) : floorMulSqrtDiv k d2 rad ≤ k := by
  unfold floorMulSqrtDiv
  calc Nat.sqrt (k ^ 2 * d2) / rad ≤ (k * rad) / rad :=
        Nat.div_le_div_right (sqrt_mul_le h)
    _ = k := Nat.mul_div_cancel _ hrad

theorem ceilMulSqrtDiv_le {k d2 rad : ℕ} (hrad : 0 < rad)
    (h : d2 ≤ rad ^ 2) : ceilMulSqrtDiv k d2 rad ≤ k := by
  unfold ceilMulSqrtDiv
  have hsk : Nat.sqrt (k ^ 2 * d2) ≤ k * rad := sqrt_mul_le h
  by_cases hc : Nat.sqrt (k ^ 2 * d2) * Nat.sqrt (k ^ 2 * d2) = k ^ 2 * d2 ∧
      Nat.sqrt (k ^ 2 * d2) % rad = 0
  · rw [if_pos hc]
    calc Nat.sqrt (k ^ 2 * d2) / rad ≤ (k * rad) / rad :=
          Nat.div_le_div_right hsk
      _ = k := Nat.mul_div_cancel _ hrad
  · rw [if_neg hc]
    have hlt : Nat.sqrt (k ^ 2 * d2) < k * rad := by
      rcases Nat.lt_or_ge (Nat.sqrt (k ^ 2 * d2)) (k * rad) with h1 | h1
      · exact h1
      · exfalso
        have heq : Nat.sqrt (k ^ 2 * d2) = k * rad := le_antisymm hsk h1
        refine hc ⟨?_, ?_⟩
        · have hle : Nat.sqrt (k ^ 2 * d2) * Nat.sqrt (k ^ 2 * d2) ≤
              k ^ 2 * d2 := Nat.sqrt_le _
          have hge : k ^ 2 * d2 ≤
              Nat.sqrt (k ^ 2 * d2) * Nat.sqrt (k ^ 2 * d2) := by
            rw [heq]
            calc k ^ 2 * d2 ≤ k ^ 2 * rad ^ 2 := Nat.mul_le_mul_left _ h
              _ = (k * rad) * (k * rad) := by ring
          omega
        · rw [heq]
          exact Nat.mul_mod_left k rad
    have hdiv : Nat.sqrt (k ^ 2 * d2) / rad < k :=
      (Nat.div_lt_iff_lt_mul hrad).mpr hlt
    omega

theorem floorMulSqrtDiv_zero (k rad : ℕ) : floorMulSqrtDiv k 0 rad = 0 := by
  simp [floorMulSqrtDiv]

theorem ceilMulSqrtDiv_zero (k rad : ℕ) : ceilMulSqrtDiv k 0 rad = 0 := by
  simp [ceilMulSqrtDiv]

theorem floorMulSqrtDiv_rad {k rad : ℕ} (hrad : 0 < rad) :
    floorMulSqrtDiv k (rad ^ 2) rad = k := by
  unfold floorMulSqrtDiv
  have h1 : k ^ 2 * rad ^ 2 = (k * rad) * (k * rad) := by ring
  rw [h1, Nat.sqrt_eq, Nat.mul_div_cancel _ hrad]

theorem ceilMulSqrtDiv_rad {k rad : ℕ} (hrad : 0 < rad) :
    ceilMulSqrtDiv k (rad ^ 2) rad = k := by
  unfold ceilMulSqrtDiv
  have h1 : k ^ 2 * rad ^ 2 = (k * rad) * (k * rad) := by ring
  rw [h1, Nat.sqrt_eq, if_pos ⟨rfl, Nat.mul_mod_left k rad⟩,
    Nat.mul_div_cancel _ hrad]

theorem final_alpha_eq_mask (size : ℕ) (img : Img) (x y : ℕ) (hs : 2 ≤ size)
    (h : create_voxmatrix_icon size = some img) :
    (img.pix x y).a = maskVal size x y := by
  unfold create_voxmatrix_icon at h
  rw [if_neg (by omega), if_neg (radius_pos hs).ne'] at h
  obtain rfl := Option.some.inj h
  rfl

/-- Claim C1, counterexample: at size 48, pixel (1, 24) has pre-mask
alpha 0 while the mask value there is 255, yet the final alpha is 255 —
not the minimum/combination of the two (which would be 0).  A pixel
whose pre-mask alpha is 0 does NOT keep alpha 0 where the mask is
255: `putalpha` replaces the alpha channel. -/
theorem C1_counterexample :
    (premaskPix 48 1 24).a = 0 ∧ maskVal 48 1 24 = 255 ∧
    (finalPix 48 1 24).a = 255 ∧
    (finalPix 48 1 24).a ≠ min (premaskPix 48 1 24).a (maskVal 48 1 24) ∧
    ((create_voxmatrix_icon 48).map fun i => (i.pix 1 24).a) = some 255 :=
  ⟨by decide, by decide, by decide, by decide, rfl⟩

/-- Claim C1, amended: when the renderer applies the mask,
`img.putalpha(mask)` REPLACES each pixel's alpha with the mask's value
at that position, regardless of the pre-mask alpha. -/
theorem C1_putalpha_replaces (size : ℕ) (img : Img) (x y : ℕ)
    (hs : 2 ≤ size) (h : create_voxmatrix_icon size = some img) :
    (img.pix x y).a = maskVal size x y :=
  final_alpha_eq_mask size img x y hs h

/-- Claim C1, witness: the amended theorem at size 48, pixel (0, 0). -/
theorem C1_witness : (icon48.pix 0 0).a = maskVal 48 0 0 :=
  C1_putalpha_replaces 48 icon48 0 0 (by decide) create48_eq

/-- Claim C2, counterexample: at size 48 the pixel (8, 24) is within
the gradient circle (dist ≤ radius) but lies on a grid line; the grid
draw replaced its RGBA with (255, 255, 255, 30), so immediately before
mask application its alpha is 30, not 255. -/
theorem C2_counterexample :
    inCircle 48 8 24 = true ∧ (premaskPix 48 8 24).a = 30 ∧
    (premaskPix 48 8 24).a ≠ 255 :=
  ⟨by decide, by decide, by decide⟩

/-- Claim C2, amended: immediately after the gradient step every
in-circle pixel is fully opaque; and immediately before mask
application an in-circle pixel is fully opaque provided no grid line,
glyph stroke, or glow stroke was drawn over it (those draws replace
alpha with 30, 255, 100 respectively). -/
theorem C2_premask_alpha (size x y : ℕ)
    (hin : inCircle size x y = true) (hglow : onGlow size x y = false)
    (hv : onV size x y = false) (hgrid : onGrid size x y = false) :
    (gradPixel size x y).a = 255 ∧ (premaskPix size x y).a = 255 := by
  refine ⟨rfl, ?_⟩
  simp [premaskPix, hglow, hv, hgrid, hin, gradPixel]

/-- Claim C2, witness: size 48, pixel (6, 23) — inside the circle and
clear of every overlay — has pre-mask alpha 255. -/
theorem C2_witness :
    (gradPixel 48 6 23).a = 255 ∧ (premaskPix 48 6 23).a = 255 :=
  C2_premask_alpha 48 6 23 (by decide) (by decide) (by decide) (by decide)

/-- Claim C3: for every size ≥ 2 and every pixel with dist ≤ radius,
the color written by the gradient step — each channel the truncated
linear interpolation between the blue endpoint (100, 150, 255) at
ratio 0 and the purple endpoint (138, 43, 195) at ratio 1, with
ratio = dist / radius — has R ∈ [100, 138], G ∈ [43, 150],
B ∈ [195, 255] and alpha 255, and attains the blue endpoint at
distance 0 and the purple endpoint at distance exactly radius. -/
theorem C3_gradient (size x y : ℕ) (hs : 2 ≤ size)
    (hin : inCircle size x y = true) :
    100 ≤ (gradPixel size x y).r ∧ (gradPixel size x y).r ≤ 138 ∧
    43 ≤ (gradPixel size x y).g ∧ (gradPixel size x y).g ≤ 150 ∧
    195 ≤ (gradPixel size x y).b ∧ (gradPixel size x y).b ≤ 255 ∧
    (gradPixel size x y).a = 255 ∧
    (dist2 size x y = 0 → gradPixel size x y = ⟨100, 150, 255, 255⟩) ∧
    (dist2 size x y = radius size ^ 2 →
      gradPixel size x y = ⟨138, 43, 195, 255⟩) := by
  have hrad : 0 < radius size := radius_pos hs
  have hd2 : dist2 size x y ≤ radius size ^ 2 := by
    simpa [inCircle] using hin
  have h38 := floorMulSqrtDiv_le (k := 38) hrad hd2
  have h107 := ceilMulSqrtDiv_le (k := 107) hrad hd2
  have h60 := ceilMulSqrtDiv_le (k := 60) hrad hd2
  refine ⟨?_, ?_, ?_, ?_, ?_, ?_, rfl, ?_, ?_⟩
  · show 100 ≤ 100 + floorMulSqrtDiv 38 (dist2 size x y) (radius size)
    omega
  · show 100 + floorMulSqrtDiv 38 (dist2 size x y) (radius size) ≤ 138
    omega
  · show 43 ≤ 150 - ceilMulSqrtDiv 107 (dist2 size x y) (radius size)
    omega
  · show 150 - ceilMulSqrtDiv 107 (dist2 size x y) (radius size) ≤ 150
    omega
  · show 195 ≤ 255 - ceilMulSqrtDiv 60 (dist2 size x y) (radius size)
    omega
  · show 255 - ceilMulSqrtDiv 60 (dist2 size x y) (radius size) ≤ 255
    omega
  · intro h0
    simp [gradPixel, h0, floorMulSqrtDiv_zero, ceilMulSqrtDiv_zero]
  · intro hR
    simp [gradPixel, hR, floorMulSqrtDiv_rad hrad, ceilMulSqrtDiv_rad hrad]

/-- Claim C3, witness: size 48 at the exact center (24, 24). -/
theorem C3_witness :
    100 ≤ (gradPixel 48 24 24).r ∧ (gradPixel 48 24 24).r ≤ 138 ∧
    43 ≤ (gradPixel 48 24 24).g ∧ (gradPixel 48 24 24).g ≤ 150 ∧
    195 ≤ (gradPixel 48 24 24).b ∧ (gradPixel 48 24 24).b ≤ 255 ∧
    (gradPixel 48 24 24).a = 255 ∧
    (dist2 48 24 24 = 0 → gradPixel 48 24 24 = ⟨100, 150, 255, 255⟩) ∧
    (dist2 48 24 24 = radius 48 ^ 2 →
      gradPixel 48 24 24 = ⟨138, 43, 195, 255⟩) :=
  C3_gradient 48 24 24 (by decide) (by decide)

/-- Claim C4, counterexample: the code computes
`padding = int(size * 0.1)`, which truncates: padding 48 = 4, not
round(4.8) = 5, and padding 96 = 9, not round(9.6) = 10. -/
theorem C4_counterexample :
    padding 48 = 4 ∧ padding 48 ≠ 5 ∧ padding 96 = 9 ∧ padding 96 ≠ 10 :=
  ⟨rfl, by decide, rfl, by decide⟩

/-- Claim C4, amended: for every positive size the border is
`padding = int(size * 0.1)` = ⌊size / 10⌋, the floor (truncation), not
the nearest integer; so padding = 4 for size 48 and 9 for size 96 (and
7, 14, 19 for sizes 72, 144, 192). -/
theorem C4_padding_floor :
    (∀ size : ℕ, 10 * padding size ≤ size ∧ size < 10 * padding size + 10) ∧
    padding 48 = 4 ∧ padding 72 = 7 ∧ padding 96 = 9 ∧
    padding 144 = 14 ∧ padding 192 = 19 := by
  refine ⟨fun size => ?_, rfl, rfl, rfl, rfl, rfl⟩
  unfold padding
  omega

/-- Claim C5, counterexample: in the rendered size-48 icon the
exact-center pixel (24, 24) has green channel 200 — the grid line and
the glow stroke through the center overwrite the gradient — so its
color is not close to the blue endpoint (100, 150, 255), whose green
is 150. -/
theorem C5_counterexample :
    (icon48.pix 24 24).g = 200 ∧ 200 ≤ (icon48.pix 24 24).g ∧
    (icon48.pix 24 24).g ≠ 150 :=
  ⟨by decide, by decide, by decide⟩

/-- Claim C5, amended: render(48) yields a 48×48 image; the center
pixel (24, 24) has alpha 255 and the corner pixel (0, 0) has alpha 0;
the gradient alone would give the center the blue endpoint
(100, 150, 255), but the center lies on a grid line and under the glow
stroke, so its final color is the glow color (100, 200, 255), not
approximately the blue endpoint. -/
theorem C5_end_to_end :
    create_voxmatrix_icon 48 = some icon48 ∧ icon48.size = 48 ∧
    (icon48.pix 24 24).a = 255 ∧ (icon48.pix 0 0).a = 0 ∧
    gradPixel 48 24 24 = ⟨100, 150, 255, 255⟩ ∧
    onGrid 48 24 24 = true ∧ onGlow 48 24 24 = true ∧
    icon48.pix 24 24 = ⟨100, 200, 255, 255⟩ :=
  ⟨create48_eq, rfl, by decide, by decide, by decide, by decide,
   by decide, by decide⟩

/-- Claim C6: after the renderer returns, the alpha channel equals the
rounded-rectangle mask at every pixel — 255 inside, 0 outside —
regardless of what was drawn; in particular the size-48 pixel (1, 24)
is inside the rounded rectangle, outside the circle, off every grid
line and stroke (pre-mask alpha 0), and ends opaque black
(0, 0, 0, 255), not transparent. -/
theorem C6_alpha_is_mask :
    (∀ (size : ℕ) (img : Img) (x y : ℕ), 2 ≤ size →
      create_voxmatrix_icon size = some img →
      (img.pix x y).a = (if inRoundedRect size x y then 255 else 0)) ∧
    inRoundedRect 48 1 24 = true ∧ inCircle 48 1 24 = false ∧
    (premaskPix 48 1 24).a = 0 ∧ icon48.pix 1 24 = ⟨0, 0, 0, 255⟩ :=
  ⟨fun size img x y hs h => final_alpha_eq_mask size img x y hs h,
   by decide, by decide, by decide, by decide⟩

/-- Claim C6, witness: the universal part at size 48, pixel (5, 5),
together with the concrete opaque-black pixel. -/
theorem C6_witness :
    (icon48.pix 5 5).a = (if inRoundedRect 48 5 5 then 255 else 0) ∧
    icon48.pix 1 24 = ⟨0, 0, 0, 255⟩ :=
  ⟨C6_alpha_is_mask.1 48 icon48 5 5 (by decide) create48_eq,
   C6_alpha_is_mask.2.2.2.2⟩

/-- Claim C7: after mask application, every pixel outside the
rounded-rectangle region has alpha 0 in the returned image, regardless
of its pre-mask alpha. -/
theorem C7_outside_transparent (size : ℕ) (img : Img) (x y : ℕ)
    (hs : 2 ≤ size) (h : create_voxmatrix_icon size = some img)
    (hout : inRoundedRect size x y = false) :
    (img.pix x y).a = 0 := by
  rw [final_alpha_eq_mask size img x y hs h]
  unfold maskVal
  rw [hout]
  rfl

/-- Claim C7, witness: size 48, corner pixel (0, 0). -/
theorem C7_witness : (icon48.pix 0 0).a = 0 :=
  C7_outside_transparent 48 icon48 0 0 (by decide) create48_eq (by decide)

/-- Claim C8: the batch driver iterates the five-entry size table in
insertion order (mdpi 48, hdpi 72, xhdpi 96, xxhdpi 144, xxxhdpi 192);
for each entry it renders at that size, creates the mipmap directory,
and saves one PNG image of that edge length at
base_path/mipmap-label/ic_launcher.png. -/
theorem C8_batch_driver :
    (mainEffects.map fun l => l.map effectSig) = some
      [Sum.inl "/home/xaf/Desktop/VoxMatrix/app/android/app/src/main/res/mipmap-mdpi",
       Sum.inr ("/home/xaf/Desktop/VoxMatrix/app/android/app/src/main/res/mipmap-mdpi/ic_launcher.png", "PNG", 48),
       Sum.inl "/home/xaf/Desktop/VoxMatrix/app/android/app/src/main/res/mipmap-hdpi",
       Sum.inr ("/home/xaf/Desktop/VoxMatrix/app/android/app/src/main/res/mipmap-hdpi/ic_launcher.png", "PNG", 72),
       Sum.inl "/home/xaf/Desktop/VoxMatrix/app/android/app/src/main/res/mipmap-xhdpi",
       Sum.inr ("/home/xaf/Desktop/VoxMatrix/app/android/app/src/main/res/mipmap-xhdpi/ic_launcher.png", "PNG", 96),
       Sum.inl "/home/xaf/Desktop/VoxMatrix/app/android/app/src/main/res/mipmap-xxhdpi",
       Sum.inr ("/home/xaf/Desktop/VoxMatrix/app/android/app/src/main/res/mipmap-xxhdpi/ic_launcher.png", "PNG", 144),
       Sum.inl "/home/xaf/Desktop/VoxMatrix/app/android/app/src/main/res/mipmap-xxxhdpi",
       Sum.inr ("/home/xaf/Desktop/VoxMatrix/app/android/app/src/main/res/mipmap-xxxhdpi/ic_launcher.png", "PNG", 192)] := by
  rfl

/-- Claim C9: determinism — any two successful renders at the same size
agree on the dimensions and on every pixel of the buffer. -/
theorem C9_deterministic (size : ℕ) (i1 i2 : Img) (x y : ℕ)
    (h1 : create_voxmatrix_icon size = some i1)
    (h2 : create_voxmatrix_icon size = some i2) :
    i1.size = i2.size ∧ i1.pix x y = i2.pix x y := by
  rw [h1] at h2
  obtain rfl := Option.some.inj h2
  exact ⟨rfl, rfl⟩

/-- Claim C9, witness: the size-48 render compared with itself at pixel
(0, 0). -/
theorem C9_witness :
    icon48.size = icon48.size ∧ icon48.pix 0 0 = icon48.pix 0 0 :=
  C9_deterministic 48 icon48 icon48 0 0 create48_eq create48_eq

/-- Claim C10: at size 1 the padding is 0, the radius is 0, the center
pixel passes the guard dist ≤ radius, and `ratio = dist / radius`
raises ZeroDivisionError — the renderer fails (none) although
size > 0; for every size ≥ 2 the radius is positive and the renderer
returns an image. -/
theorem C10_size_one_fails :
    create_voxmatrix_icon 1 = none ∧ radius 1 = 0 ∧
    inCircle 1 (center 1) (center 1) = true ∧
    (∀ size : ℕ, 2 ≤ size →
      0 < radius size ∧ (create_voxmatrix_icon size).isSome = true) := by
  refine ⟨rfl, rfl, by decide, fun size hs => ⟨radius_pos hs, ?_⟩⟩
  unfold create_voxmatrix_icon
  rw [if_neg (by omega), if_neg (radius_pos hs).ne']
  rfl

/-- Claim C10, witness: size 1 fails while size 2 succeeds. -/
theorem C10_witness :
    create_voxmatrix_icon 1 = none ∧ 0 < radius 2 ∧
    (create_voxmatrix_icon 2).isSome = true :=
  ⟨C10_size_one_fails.1, (C10_size_one_fails.2.2.2 2 (by decide)).1,
   (C10_size_one_fails.2.2.2 2 (by decide)).2⟩

end VoxMatrix
